import Mathlib

/-!
Shallow embedding of the cloud self-update backend (src/backends/cloud.rs and
the pieces of the surrounding crate it relies on), together with theorems
settling the specification claims about it.

Conventions of the embedding:
* Rust `Result` values, Rust panics (`unwrap` / `expect` on missing values)
  and normal returns are distinguished by the `Outcome` type below: `ok` is a
  normal `Ok`, `err` a returned `Err`, and `panic` an aborting panic.
* The HTTP transport is external: each fetch function takes the HTTP response
  (status plus the decoding outcome of the body) as an explicit argument and
  models everything the Rust code does from that point on.
* Machine integers (`i64` ids) are modelled as `Int`; none of the modelled
  code can overflow them.
-/

/-- Modelled from the spec: the error taxonomy of the crate's `errors` module
(spec section 7), which is not under src/. Only the three variants named by
`cloud.rs` are needed: `Config` (builder/configuration failures), `Network`
(non-success HTTP status or transport/decoding failure) and `Release`
(release-not-found). Each carries its human-readable message, as produced by
the `bail!` macro's format string. -/
inductive Error where
  | Config : String → Error
  | Network : String → Error
  | Release : String → Error
deriving DecidableEq

/-- Outcome of running a piece of Rust code: a normal `Ok` value, a returned
`Err`, or a panic aborting the process. -/
inductive Outcome (α : Type) where
  | ok : α → Outcome α
  | err : Error → Outcome α
  | panic : Outcome α
deriving DecidableEq

/-- True exactly on a returned `Err`. -/
def Outcome.isErr {α : Type} : Outcome α → Bool
  | .err _ => true
  | _ => false

/-- True exactly on a normal `Ok`. -/
def Outcome.isOk {α : Type} : Outcome α → Bool
  | .ok _ => true
  | _ => false

/-- The remote release record (`Soft` in cloud.rs): numeric id, numeric
binary id, optional name, optional hash, optional version, optional creation
timestamp. -/
structure Soft where
  id : Int
  binary_id : Int
  name : Option String
  hash : Option String
  version : Option String
  create_time : Option String
deriving DecidableEq

/-- The wire-level envelope (`NetResponse<T>` in cloud.rs). -/
structure NetResponse (α : Type) where
  is_success : Bool
  content : α
  error_mesg : Option String
deriving DecidableEq

/-- A downloadable artifact (`ReleaseAsset` from the crate's update module,
constructed field-by-field in cloud.rs). -/
structure ReleaseAsset where
  name : String
  download_url : String
deriving DecidableEq

/-- A normalized release (`Release` from the crate's update module,
constructed field-by-field in cloud.rs). -/
structure Release where
  name : String
  version : String
  date : String
  body : Option String
  assets : List ReleaseAsset
deriving DecidableEq

/-- `from_cloud` (cloud.rs lines 18-34): map a remote record into a
`Release`. The Rust code calls `.unwrap()` on `name` (first, while building
the single asset) and on `version`, so a record missing either panics; the
declared `Result` return is always `Ok`. `date` falls back to the empty
string, and the download URL is the api root followed by the binary-id query. -/
def from_cloud (soft : Soft) (root_url : String) : Outcome Release :=
  match soft.name with
  | none => .panic
  | some n =>
    match soft.version with
    | none => .panic
    | some v =>
      .ok { name := n
            version := v
            date := soft.create_time.getD ""
            body := none
            assets := [{ name := n
                         download_url :=
                           root_url ++ "/api/binaryfile/download?id=" ++ toString soft.binary_id }] }

/-- An HTTP response as the fetch functions see it: the status code, and the
result of decoding the body as JSON into the expected shape (`resp.json()`),
with the decoder's error message on failure. The transport itself is
external. -/
structure HttpResp (α : Type) where
  status : Nat
  body : Except String α

/-- `reqwest::StatusCode::is_success`: status in the range 200-299. -/
def statusIsSuccess (s : Nat) : Bool :=
  200 ≤ s && s < 300

/-- The message of the `bail!(Error::Network, "api request failed with status: ...")`
call shared by `fetch_releases` and `get_release_version`: it formats the
status code and the requested URL (the URL with Debug quoting) into the text. -/
def networkErrMsg (status : Nat) (url : String) : String :=
  "api request failed with status: " ++ toString status ++ " - for: \x22" ++ url ++ "\x22"

/-- The `ReleaseList` built by `ReleaseListBuilder::build` (cloud.rs). -/
structure ReleaseList where
  name : Option String
  target : Option String
  auth_token : Option String
  custom_url : Option String
deriving DecidableEq

/-- The per-record closure body of `fetch_releases`:
`from_cloud(s, &self.custom_url.as_ref().unwrap())`. The unwrap of the
configured custom url is evaluated first; when no custom url is set it
panics. -/
def mapSoft (custom_url : Option String) (s : Soft) : Outcome Release :=
  match custom_url with
  | none => .panic
  | some root => from_cloud s root

/-- `collect::<Result<Vec<_>>>()` over an iterator of fallible items,
fail-fast left to right; a panic while producing an item aborts everything. -/
def collectOutcomes {α : Type} : List (Outcome α) → Outcome (List α)
  | [] => .ok []
  | o :: rest =>
    match o with
    | .ok a =>
      match collectOutcomes rest with
      | .ok l => .ok (a :: l)
      | .err e => .err e
      | .panic => .panic
    | .err e => .err e
    | .panic => .panic

/-- The list-endpoint URL built by `ReleaseList::fetch`: the custom url (or
the hard-coded default root, which lacks the double slash) followed by the
fixed path and query. -/
def ReleaseList.list_api_url (rl : ReleaseList) : String :=
  (rl.custom_url.getD "http:127.0.0.1") ++ "/api/soft/getlist?type=2"

/-- `ReleaseList::fetch_releases` (cloud.rs lines 154-176) from the point the
HTTP response is available: a non-success status bails with a `Network` error
carrying status and URL (the body is never decoded); a body that fails to
decode is a `Network`-side decoding failure; a successful envelope with a
non-empty content is mapped record-by-record through `from_cloud` (unwrapping
the custom url); anything else bails with `Error::Release`. -/
def ReleaseList.fetch_releases (rl : ReleaseList) (url : String)
    (resp : HttpResp (NetResponse (List Soft))) : Outcome (List Release) :=
  if statusIsSuccess resp.status then
    match resp.body with
    | .error e => .err (.Network e)
    | .ok json =>
      if json.is_success && decide (0 < json.content.length) then
        collectOutcomes (json.content.map (mapSoft rl.custom_url))
      else
        .err (.Release "Not found Release")
  else
    .err (.Network (networkErrMsg resp.status url))

/-- Modelled from the spec: `Release::has_target_asset` lives in the crate's
update module, which is not under src/. Spec section 4.2: a release has the
target when at least one of its assets is platform-compatible with the target
string, compatibility being a simple substring match against asset naming. -/
def Release.has_target_asset (r : Release) (target : String) : Bool :=
  r.assets.any (fun a => decide (target.data <:+: a.name.data))

/-- `ReleaseList::fetch` (cloud.rs lines 134-152): build the list URL, fetch
and map the releases, then, only when a target is configured, keep the
releases having a target-compatible asset; errors propagate unchanged. -/
def ReleaseList.fetch (rl : ReleaseList)
    (resp : HttpResp (NetResponse (List Soft))) : Outcome (List Release) :=
  match rl.fetch_releases rl.list_api_url resp with
  | .ok releases =>
    match rl.target with
    | none => .ok releases
    | some target => .ok (releases.filter (fun r => r.has_target_asset target))
  | .err e => .err e
  | .panic => .panic

/-- `str::trim_end_matches` specialised to string patterns, on the underlying
character lists: repeatedly remove the pattern from the end while it is a
suffix. An empty pattern removes nothing (Rust's empty-pattern matches are
empty and stripping them changes nothing). -/
def trimEndMatchesList (pat s : List Char) : List Char :=
  if h : pat ≠ [] ∧ pat.isSuffixOf s then
    trimEndMatchesList pat (s.take (s.length - pat.length))
  else
    s
termination_by s.length
decreasing_by
  have hsuf : pat <:+ s := List.isSuffixOf_iff_suffix.mp h.2
  have hle : pat.length ≤ s.length := hsuf.length_le
  have hpos : 0 < pat.length := List.length_pos.mpr h.1
  simp only [List.length_take]
  omega

/-- The normalization performed by `UpdateBuilder::bin_name` (cloud.rs lines
251-258): `format!("{}{}", name.trim_end_matches(EXE_SUFFIX), EXE_SUFFIX)`,
with the platform executable suffix passed explicitly. -/
def bin_name_normalize (suffix name : String) : String :=
  ⟨trimEndMatchesList suffix.data name.data ++ suffix.data⟩

/-- The `UpdateBuilder` accumulator (cloud.rs lines 184-199). `PathBuf`
fields are modelled as strings; `ProgressStyle` is external and carries no
information the modelled code inspects. -/
structure UpdateBuilder where
  name : Option String
  target : Option String
  bin_name : Option String
  bin_install_path : Option String
  bin_path_in_archive : Option String
  show_download_progress : Bool
  show_output : Bool
  no_confirm : Bool
  ignore_ver_compare : Bool
  current_version : Option String
  target_version : Option String
  progress_style : Option Unit
  auth_token : Option String
  custom_url : Option String
deriving DecidableEq

/-- `impl Default for UpdateBuilder` (cloud.rs lines 549-568). -/
def UpdateBuilder.default : UpdateBuilder where
  name := none
  target := none
  bin_name := none
  bin_install_path := none
  bin_path_in_archive := none
  show_download_progress := false
  show_output := true
  ignore_ver_compare := true
  no_confirm := false
  current_version := none
  target_version := none
  progress_style := none
  auth_token := none
  custom_url := none

/-- `UpdateBuilder::new` (cloud.rs lines 203-205): `Default::default()`. -/
def UpdateBuilder.new : UpdateBuilder := UpdateBuilder.default

/-- The setter `UpdateBuilder::bin_name` (cloud.rs lines 251-258): store the
suffix-normalized name, and derive `bin_path_in_archive` from it when not
already set. Named with a `_set` suffix because the record field projection
already takes the source name. -/
def UpdateBuilder.bin_name_set (b : UpdateBuilder) (suffix name : String) : UpdateBuilder :=
  let raw_bin_name := bin_name_normalize suffix name
  { b with
    bin_name := some raw_bin_name
    bin_path_in_archive :=
      match b.bin_path_in_archive with
      | none => some raw_bin_name
      | some p => some p }

/-- The validated `Update` plan (cloud.rs lines 387-402). -/
structure Update where
  name : String
  target : String
  current_version : String
  target_version : Option String
  bin_name : String
  bin_install_path : String
  bin_path_in_archive : String
  show_download_progress : Bool
  ignore_ver_compare : Bool
  show_output : Bool
  no_confirm : Bool
  progress_style : Option Unit
  auth_token : Option String
  custom_url : Option String
deriving DecidableEq

/-- `UpdateBuilder::build` (cloud.rs lines 339-382). The two ambient values
the Rust code reads are passed explicitly: `current_exe` is
`env::current_exe()?` (assumed available) and `build_target` is the crate's
`get_target()` platform triple. The struct literal is evaluated field by
field, so the missing-field bails fire in source order: `name` (whose bail
message is the copy-pasted string naming `bin_name`), then `bin_name`, then
`bin_path_in_archive`, then `current_version`. -/
def UpdateBuilder.build (b : UpdateBuilder) (current_exe build_target : String) :
    Outcome Update :=
  let bin_install_path :=
    match b.bin_install_path with
    | some v => v
    | none => current_exe
  match b.name with
  | none => .err (.Config "\x60bin_name\x60 required")
  | some name =>
    match b.bin_name with
    | none => .err (.Config "\x60bin_name\x60 required")
    | some bin_name =>
      match b.bin_path_in_archive with
      | none => .err (.Config "\x60bin_path_in_archive\x60 required")
      | some bin_path_in_archive =>
        match b.current_version with
        | none => .err (.Config "\x60current_version\x60 required")
        | some current_version =>
          .ok { name := name
                target := b.target.getD build_target
                current_version := current_version
                target_version := b.target_version
                bin_name := bin_name
                bin_install_path := bin_install_path
                bin_path_in_archive := bin_path_in_archive
                show_download_progress := b.show_download_progress
                ignore_ver_compare := b.ignore_ver_compare
                show_output := b.show_output
                no_confirm := b.no_confirm
                progress_style := b.progress_style
                auth_token := b.auth_token
                custom_url := b.custom_url }

/-- The single-version endpoint URL built by `Update::get_release_version`:
the custom url (or the hard-coded default root with port 5000) followed by
the fixed path and the version query. -/
def Update.ver_api_url (u : Update) (ver : String) : String :=
  (u.custom_url.getD "http://127.0.0.1:5000") ++ "/api/soft/getver?type=2&ver=" ++ ver

/-- `Update::get_release_version` (cloud.rs lines 415-443) from the point the
HTTP response is available: a non-success status bails with a `Network` error
carrying status and URL; a successful envelope is mapped with
`from_cloud(&json.content, &self.custom_url.as_ref().unwrap()).unwrap()`
(panicking when no custom url is configured, or when the record is missing
name or version); an unsuccessful envelope bails with `Error::Release`. -/
def Update.get_release_version (u : Update) (ver : String)
    (resp : HttpResp (NetResponse Soft)) : Outcome Release :=
  if statusIsSuccess resp.status then
    match resp.body with
    | .error e => .err (.Network e)
    | .ok json =>
      if json.is_success then
        match u.custom_url with
        | none => .panic
        | some root =>
          match from_cloud json.content root with
          | .ok r => .ok r
          | .err _ => .panic
          | .panic => .panic
      else
        .err (.Release "can not get Last relesae")
  else
    .err (.Network (networkErrMsg resp.status (u.ver_api_url ver)))

/-- `Update::get_latest_release` (cloud.rs lines 411-413): the single-version
fetch with the empty tag. -/
def Update.get_latest_release (u : Update) (resp : HttpResp (NetResponse Soft)) :
    Outcome Release :=
  u.get_release_version "" resp

/-- The outcome of spawning a hook command and capturing its output
(`Command::output()`): the exit code, and the captured stdout decoded as
UTF-8 (`none` when the bytes are not valid UTF-8). -/
structure CmdOutput where
  exit_code : Int
  stdout_utf8 : Option String
deriving DecidableEq

/-- The shared body of `Update::before_update` and `Update::after_update`
(cloud.rs lines 493-536): run the platform's service-control command, calling
`.expect("failed to execute process")` on the spawn result (panicking when the
command could not run at all) and `String::from_utf8(output.stdout).unwrap()`
(panicking on invalid UTF-8); otherwise log the status and output and return
normally, whatever the exit status was. The spawn outcome is the external
input. -/
def runHook (spawn : Option CmdOutput) : Outcome Unit :=
  match spawn with
  | none => .panic
  | some out =>
    match out.stdout_utf8 with
    | none => .panic
    | some _ => .ok ()

/-- `Update::before_update` (cloud.rs lines 493-513). -/
def Update.before_update (_u : Update) (spawn : Option CmdOutput) : Outcome Unit :=
  runHook spawn

/-- `Update::after_update` (cloud.rs lines 516-536). -/
def Update.after_update (_u : Update) (spawn : Option CmdOutput) : Outcome Unit :=
  runHook spawn

/-- Modelled from the spec: the version gate of the update orchestrator
(`GateOnVersion`, spec section 4.4); the orchestration (`ReleaseUpdate::update`
in the crate's update module) is not under src/. Unless the
ignore-version-compare flag is set, an update is applied only when the
resolved version differs from the current one; with the flag set the gate is
disabled and the update is always applied. -/
def gate_applies (ignore_ver_compare : Bool) (resolved current : String) : Bool :=
  ignore_ver_compare || resolved != current

/-! ### Helper lemmas -/

/-- A record missing its name or version makes `from_cloud` panic. -/
theorem from_cloud_missing_panics (soft : Soft) (root : String)
    (h : soft.name = none ∨ soft.version = none) : from_cloud soft root = .panic := by
  rcases h with h | h
  · simp [from_cloud, h]
  · cases hn : soft.name <;> simp [from_cloud, hn, h]

/-- The per-record closure panics on a record missing name or version,
whatever the configured custom url. -/
theorem mapSoft_missing_panics (cu : Option String) (s : Soft)
    (h : s.name = none ∨ s.version = none) : mapSoft cu s = .panic := by
  cases cu with
  | none => rfl
  | some root => exact from_cloud_missing_panics s root h

/-- A successful `collect` means every collected item was `Ok`. -/
theorem collectOutcomes_ok_forall {α : Type} :
    ∀ (l : List (Outcome α)) (l' : List α), collectOutcomes l = .ok l' →
      ∀ o ∈ l, o.isOk = true := by
  intro l
  induction l with
  | nil => intro l' _ o ho; cases ho
  | cons head rest ih =>
    intro l' h o ho
    cases head with
    | ok a =>
      rcases List.mem_cons.mp ho with rfl | ho'
      · rfl
      · cases hrest : collectOutcomes rest with
        | ok l'' => exact ih l'' hrest o ho'
        | err e => simp [collectOutcomes, hrest] at h
        | panic => simp [collectOutcomes, hrest] at h
    | err e => simp [collectOutcomes] at h
    | panic => simp [collectOutcomes] at h

/-- Stripping with an empty pattern changes nothing. -/
theorem trimEndMatchesList_nil (s : List Char) : trimEndMatchesList [] s = s := by
  rw [trimEndMatchesList]
  simp

/-- After stripping, the (non-empty) pattern is no longer a suffix. -/
theorem trimEndMatchesList_not_suffix (pat s : List Char) (hpat : pat ≠ []) :
    pat.isSuffixOf (trimEndMatchesList pat s) = false := by
  refine trimEndMatchesList.induct pat
    (fun t => pat.isSuffixOf (trimEndMatchesList pat t) = false) ?_ ?_ s
  · intro t h ih
    rw [trimEndMatchesList, dif_pos h]
    exact ih
  · intro t h
    rw [trimEndMatchesList, dif_neg h]
    rcases not_and_or.mp h with h1 | h2
    · exact absurd (not_not.mp h1) hpat
    · exact eq_false_of_ne_true h2

/-- Stripping a non-empty pattern from a word that ends in exactly one copy
of it removes exactly that copy. -/
theorem trimEndMatchesList_append_self (pat t : List Char) (hpat : pat ≠ [])
    (ht : pat.isSuffixOf t = false) :
    trimEndMatchesList pat (t ++ pat) = t := by
  have hsuf : pat.isSuffixOf (t ++ pat) = true :=
    List.isSuffixOf_iff_suffix.mpr (List.suffix_append t pat)
  rw [trimEndMatchesList, dif_pos ⟨hpat, hsuf⟩]
  have h1 : (t ++ pat).length - pat.length = t.length := by simp
  rw [h1, List.take_left]
  rw [trimEndMatchesList, dif_neg (by simp [ht])]

/-! ### Sample values used by witnesses and counterexamples -/

/-- The spec's end-to-end scenario record. -/
def soft_agent : Soft :=
  { id := 1, binary_id := 42, name := some "agent", hash := none,
    version := some "2.0.0", create_time := some "2024-01-01" }

/-- A record with no name (and no timestamp). -/
def soft_noname : Soft :=
  { id := 1, binary_id := 42, name := none, hash := none,
    version := some "2.0.0", create_time := none }

/-- The release the spec's end-to-end scenario expects. -/
def release_agent : Release :=
  { name := "agent", version := "2.0.0", date := "2024-01-01", body := none,
    assets := [{ name := "agent", download_url := "http://h/api/binaryfile/download?id=42" }] }

/-- A release list configured with a custom api root and no target. -/
def rl_h : ReleaseList :=
  { name := some "Agent", target := none, auth_token := none, custom_url := some "http://h" }

/-- A release list configured with a custom api root and a target that no
asset name contains. -/
def rl_filter : ReleaseList :=
  { name := some "Agent", target := some "zzz", auth_token := none,
    custom_url := some "http://h" }

/-- A release list with no custom api root configured. -/
def rl_nourl : ReleaseList :=
  { name := some "Agent", target := none, auth_token := none, custom_url := none }

/-- An update plan configured with a custom api root. -/
def u_h : Update :=
  { name := "Agent", target := "x86_64-pc-windows-msvc", current_version := "1.0.0",
    target_version := none, bin_name := "CloudAgent.exe",
    bin_install_path := "D:/Server/CloudAgent", bin_path_in_archive := "CloudAgent.exe",
    show_download_progress := true, ignore_ver_compare := true, show_output := true,
    no_confirm := true, progress_style := none, auth_token := none,
    custom_url := some "http://h" }

/-- The same plan with no custom api root configured. -/
def u_nourl : Update := { u_h with custom_url := none }

/-! ### Claims -/

/-- C4: for every remote record with present name and version, mapping it
against an api root yields a release with exactly one asset whose download
URL is the root followed by the binary-id download query and whose name is
the record's name, and whose date is the creation timestamp or the empty
string when absent. -/
theorem C4_from_cloud_valid_record (soft : Soft) (root n v : String)
    (hn : soft.name = some n) (hv : soft.version = some v) :
    from_cloud soft root =
      .ok { name := n, version := v, date := soft.create_time.getD "", body := none,
            assets := [{ name := n,
                         download_url :=
                           root ++ "/api/binaryfile/download?id=" ++ toString soft.binary_id }] } := by
  simp [from_cloud, hn, hv]

/-- C4 witness: the spec's end-to-end scenario record at root http://h. -/
theorem C4_from_cloud_valid_record_witness :
    soft_agent.name = some "agent" ∧ soft_agent.version = some "2.0.0" ∧
    from_cloud soft_agent "http://h" = .ok release_agent := by
  refine ⟨rfl, rfl, ?_⟩
  have h := C4_from_cloud_valid_record soft_agent "http://h" "agent" "2.0.0" rfl rfl
  exact h.trans (by decide)

/-- C1 counterexample: a record with no name is not mapped to an error
result for the batch; `from_cloud` panics on the unwrap instead. -/
theorem C1_counterexample :
    from_cloud soft_noname "http://h" = .panic ∧
    (from_cloud soft_noname "http://h").isErr = false := by
  exact ⟨rfl, rfl⟩

/-- C1 (amended): a decoded record missing name or version makes the mapping
panic (abort) rather than return an error result; `fetch_releases` still
never returns a partial list of only the valid records, because no `Ok` list
at all can be returned when such a record is in the batch. -/
theorem C1_missing_field_aborts_batch :
    (∀ (soft : Soft) (root : String), soft.name = none ∨ soft.version = none →
      from_cloud soft root = .panic) ∧
    (∀ (rl : ReleaseList) (url : String) (resp : HttpResp (NetResponse (List Soft)))
        (json : NetResponse (List Soft)),
      resp.body = .ok json →
      (∃ s ∈ json.content, s.name = none ∨ s.version = none) →
      ∀ l, rl.fetch_releases url resp ≠ .ok l) := by
  constructor
  · exact from_cloud_missing_panics
  · intro rl url resp json hbody hbad l hok
    obtain ⟨s, hmem, hfield⟩ := hbad
    by_cases hs : statusIsSuccess resp.status
    · rw [ReleaseList.fetch_releases, if_pos hs, hbody] at hok
      have hok' : (if (json.is_success && decide (0 < json.content.length)) = true then
          collectOutcomes (json.content.map (mapSoft rl.custom_url))
        else Outcome.err (Error.Release "Not found Release")) = Outcome.ok l := hok
      by_cases hcond : json.is_success && decide (0 < json.content.length)
      · rw [if_pos hcond] at hok'
        have hisok := collectOutcomes_ok_forall _ l hok' (mapSoft rl.custom_url s)
          (List.mem_map_of_mem _ hmem)
        rw [mapSoft_missing_panics rl.custom_url s hfield] at hisok
        exact absurd hisok (by decide)
      · rw [if_neg hcond] at hok'
        exact Outcome.noConfusion hok'
    · rw [ReleaseList.fetch_releases, if_neg hs] at hok
      exact Outcome.noConfusion hok

/-- C1 witness: at a concrete batch holding a nameless record, the mapping
panics and the fetch returns no list. -/
theorem C1_missing_field_aborts_batch_witness :
    from_cloud soft_noname "http://h" ≠ .ok release_agent ∧
    rl_h.fetch_releases "u" ⟨200, .ok ⟨true, [soft_noname], none⟩⟩ ≠ .ok [] := by
  constructor
  · rw [C1_missing_field_aborts_batch.1 soft_noname "http://h" (Or.inl rfl)]
    exact Outcome.noConfusion
  · exact C1_missing_field_aborts_batch.2 rl_h "u" ⟨200, .ok ⟨true, [soft_noname], none⟩⟩
      ⟨true, [soft_noname], none⟩ rfl ⟨soft_noname, by simp, Or.inl rfl⟩ []

/-- C6: the binary-name normalization of `UpdateBuilder::bin_name` appends
the platform executable suffix (the suffix is a suffix of the result) and is
idempotent: normalizing an already-normalized name changes nothing, for every
name and every suffix, so the suffix is never double-appended. -/
theorem C6_bin_name_normalize_idempotent (suffix name : String) :
    bin_name_normalize suffix (bin_name_normalize suffix name) =
      bin_name_normalize suffix name ∧
    suffix.data <:+ (bin_name_normalize suffix name).data := by
  constructor
  · by_cases hpat : suffix.data = []
    · show (⟨trimEndMatchesList suffix.data _ ++ suffix.data⟩ : String) = _
      simp [bin_name_normalize, hpat, trimEndMatchesList_nil]
    · show (⟨trimEndMatchesList suffix.data
        (trimEndMatchesList suffix.data name.data ++ suffix.data) ++ suffix.data⟩ : String) = _
      rw [trimEndMatchesList_append_self suffix.data _ hpat
        (trimEndMatchesList_not_suffix suffix.data name.data hpat)]
      rfl
  · exact List.suffix_append _ _

/-- C2: an envelope with a false success flag makes both the list fetch and
the single-version fetch return the `Error::Release` (release-not-found)
failure, whatever the content; a decoded content of zero records makes the
list fetch return the same failure (the single-version fetch decodes its
content as one record, which can never be an empty sequence). -/
theorem C2_unsuccessful_envelope_release_not_found :
    (∀ (rl : ReleaseList) (url : String) (resp : HttpResp (NetResponse (List Soft)))
        (json : NetResponse (List Soft)),
        statusIsSuccess resp.status = true → resp.body = .ok json →
        json.is_success = false →
        rl.fetch_releases url resp = .err (.Release "Not found Release")) ∧
    (∀ (rl : ReleaseList) (url : String) (resp : HttpResp (NetResponse (List Soft)))
        (json : NetResponse (List Soft)),
        statusIsSuccess resp.status = true → resp.body = .ok json →
        json.content = [] →
        rl.fetch_releases url resp = .err (.Release "Not found Release")) ∧
    (∀ (u : Update) (ver : String) (resp : HttpResp (NetResponse Soft))
        (json : NetResponse Soft),
        statusIsSuccess resp.status = true → resp.body = .ok json →
        json.is_success = false →
        u.get_release_version ver resp = .err (.Release "can not get Last relesae")) := by
  refine ⟨?_, ?_, ?_⟩
  · intro rl url resp json hs hbody hsucc
    rw [ReleaseList.fetch_releases, if_pos hs, hbody]
    show (if (json.is_success && decide (0 < json.content.length)) = true then _ else _) = _
    rw [if_neg (by simp [hsucc])]
  · intro rl url resp json hs hbody hcontent
    rw [ReleaseList.fetch_releases, if_pos hs, hbody]
    show (if (json.is_success && decide (0 < json.content.length)) = true then _ else _) = _
    rw [if_neg (by simp [hcontent])]
  · intro u ver resp json hs hbody hsucc
    rw [Update.get_release_version, if_pos hs, hbody]
    show (if json.is_success = true then _ else _) = _
    rw [if_neg (by simp [hsucc])]

/-- C2 witness: concrete unsuccessful and empty envelopes at HTTP status 200. -/
theorem C2_unsuccessful_envelope_release_not_found_witness :
    rl_h.fetch_releases "u" ⟨200, .ok ⟨false, [soft_agent], none⟩⟩ =
      .err (.Release "Not found Release") ∧
    rl_h.fetch_releases "u" ⟨200, .ok ⟨true, [], none⟩⟩ =
      .err (.Release "Not found Release") ∧
    u_h.get_release_version "1.0.0" ⟨200, .ok ⟨false, soft_agent, none⟩⟩ =
      .err (.Release "can not get Last relesae") :=
  ⟨C2_unsuccessful_envelope_release_not_found.1 rl_h "u" _ ⟨false, [soft_agent], none⟩
      (by decide) rfl rfl,
   C2_unsuccessful_envelope_release_not_found.2.1 rl_h "u" _ ⟨true, [], none⟩
      (by decide) rfl rfl,
   C2_unsuccessful_envelope_release_not_found.2.2 u_h "1.0.0" _ ⟨false, soft_agent, none⟩
      (by decide) rfl rfl⟩

/-- C7: a non-success HTTP status makes both fetches return a `Network`
failure whose message carries the status code and the requested URL, the
result does not depend on the body (no decoding is attempted), and the
message literally contains the status and the URL. -/
theorem C7_non_success_status_network_failure :
    (∀ (rl : ReleaseList) (url : String) (resp : HttpResp (NetResponse (List Soft))),
        statusIsSuccess resp.status = false →
        rl.fetch_releases url resp = .err (.Network (networkErrMsg resp.status url))) ∧
    (∀ (u : Update) (ver : String) (resp : HttpResp (NetResponse Soft)),
        statusIsSuccess resp.status = false →
        u.get_release_version ver resp =
          .err (.Network (networkErrMsg resp.status (u.ver_api_url ver)))) ∧
    (∀ (rl : ReleaseList) (url : String) (s : Nat)
        (b b' : Except String (NetResponse (List Soft))),
        statusIsSuccess s = false →
        rl.fetch_releases url ⟨s, b⟩ = rl.fetch_releases url ⟨s, b'⟩) ∧
    (∀ (s : Nat) (url : String), ∃ p q r : String,
        networkErrMsg s url = p ++ toString s ++ q ++ url ++ r) := by
  refine ⟨?_, ?_, ?_, ?_⟩
  · intro rl url resp hs
    rw [ReleaseList.fetch_releases, if_neg (by simp [hs])]
  · intro u ver resp hs
    rw [Update.get_release_version, if_neg (by simp [hs])]
  · intro rl url s b b' hs
    rw [ReleaseList.fetch_releases, if_neg (by simp [hs]),
        ReleaseList.fetch_releases, if_neg (by simp [hs])]
  · intro s url
    exact ⟨"api request failed with status: ", " - for: \x22", "\x22", rfl⟩

/-- C7 witness: HTTP status 500 on both endpoints, with two different
bodies giving the same failure. -/
theorem C7_non_success_status_network_failure_witness :
    rl_h.fetch_releases "http://h/api/soft/getlist?type=2" ⟨500, .error "ignored"⟩ =
      .err (.Network (networkErrMsg 500 "http://h/api/soft/getlist?type=2")) ∧
    u_h.get_release_version "" ⟨500, .error "ignored"⟩ =
      .err (.Network (networkErrMsg 500 (u_h.ver_api_url ""))) ∧
    rl_h.fetch_releases "u" ⟨500, .error "one body"⟩ =
      rl_h.fetch_releases "u" ⟨500, .ok ⟨true, [soft_agent], none⟩⟩ :=
  ⟨C7_non_success_status_network_failure.1 rl_h "http://h/api/soft/getlist?type=2"
      ⟨500, .error "ignored"⟩ (by decide),
   C7_non_success_status_network_failure.2.1 u_h "" ⟨500, .error "ignored"⟩ (by decide),
   C7_non_success_status_network_failure.2.2.1 rl_h "u" 500 (.error "one body")
      (.ok ⟨true, [soft_agent], none⟩) (by decide)⟩

/-- C9: with no custom api root configured, the request URLs are built from
the hard-coded default roots, but a successful envelope (with at least one
record, for the list fetch) makes the success path unwrap the unset custom
url and panic instead of returning a release. -/
theorem C9_no_custom_url_success_path_panics :
    (∀ rl : ReleaseList, rl.custom_url = none →
        rl.list_api_url = "http:127.0.0.1/api/soft/getlist?type=2") ∧
    (∀ (rl : ReleaseList) (resp : HttpResp (NetResponse (List Soft)))
        (json : NetResponse (List Soft)),
        rl.custom_url = none → statusIsSuccess resp.status = true →
        resp.body = .ok json → json.is_success = true → json.content ≠ [] →
        rl.fetch resp = .panic) ∧
    (∀ (u : Update) (ver : String), u.custom_url = none →
        u.ver_api_url ver = "http://127.0.0.1:5000/api/soft/getver?type=2&ver=" ++ ver) ∧
    (∀ (u : Update) (ver : String) (resp : HttpResp (NetResponse Soft))
        (json : NetResponse Soft),
        u.custom_url = none → statusIsSuccess resp.status = true →
        resp.body = .ok json → json.is_success = true →
        u.get_release_version ver resp = .panic) := by
  refine ⟨?_, ?_, ?_, ?_⟩
  · intro rl hcu
    rw [ReleaseList.list_api_url, hcu]
    rfl
  · intro rl resp json hcu hs hbody hsucc hne
    have hfr : rl.fetch_releases rl.list_api_url resp = .panic := by
      rw [ReleaseList.fetch_releases, if_pos hs, hbody]
      show (if (json.is_success && decide (0 < json.content.length)) = true then _ else _) = _
      cases hc : json.content with
      | nil => exact absurd hc hne
      | cons s rest =>
        rw [if_pos (by simp [hsucc, hc])]
        simp only [List.map_cons, mapSoft, hcu]
        rfl
    rw [ReleaseList.fetch, hfr]
  · intro u ver hcu
    rw [Update.ver_api_url, hcu]
    rfl
  · intro u ver resp json hcu hs hbody hsucc
    rw [Update.get_release_version, if_pos hs, hbody]
    show (if json.is_success = true then _ else _) = _
    rw [if_pos hsucc, hcu]

/-- C9 witness: concrete successful responses with no custom url configured. -/
theorem C9_no_custom_url_success_path_panics_witness :
    rl_nourl.list_api_url = "http:127.0.0.1/api/soft/getlist?type=2" ∧
    rl_nourl.fetch ⟨200, .ok ⟨true, [soft_agent], none⟩⟩ = .panic ∧
    u_nourl.ver_api_url "" = "http://127.0.0.1:5000/api/soft/getver?type=2&ver=" ∧
    u_nourl.get_release_version "" ⟨200, .ok ⟨true, soft_agent, none⟩⟩ = .panic :=
  ⟨C9_no_custom_url_success_path_panics.1 rl_nourl rfl,
   C9_no_custom_url_success_path_panics.2.1 rl_nourl _ ⟨true, [soft_agent], none⟩
      rfl (by decide) rfl rfl (by decide),
   (C9_no_custom_url_success_path_panics.2.2.1 u_nourl "" rfl).trans (by decide),
   C9_no_custom_url_success_path_panics.2.2.2 u_nourl "" _ ⟨true, soft_agent, none⟩
      rfl (by decide) rfl rfl⟩

/-- C8: once `fetch_releases` succeeds, `ReleaseList::fetch` returns the
list unchanged when no target is set; when a target is set it keeps exactly
the releases having a target-compatible asset, in order (the filtered list
is a sublist, and membership is membership with a compatible asset); a
filter result of zero releases is still a successful empty sequence, not an
error. -/
theorem C8_fetch_target_filter (rl : ReleaseList)
    (resp : HttpResp (NetResponse (List Soft))) (rs : List Release)
    (h : rl.fetch_releases rl.list_api_url resp = .ok rs) :
    (rl.target = none → rl.fetch resp = .ok rs) ∧
    (∀ t, rl.target = some t →
      rl.fetch resp = .ok (rs.filter (fun r => r.has_target_asset t)) ∧
      List.Sublist (rs.filter (fun r => r.has_target_asset t)) rs ∧
      (∀ r, r ∈ rs.filter (fun r => r.has_target_asset t) ↔
        r ∈ rs ∧ r.has_target_asset t = true)) := by
  constructor
  · intro ht
    rw [ReleaseList.fetch, h, ht]
  · intro t ht
    refine ⟨by rw [ReleaseList.fetch, h, ht], List.filter_sublist _, ?_⟩
    intro r
    simp [List.mem_filter]

/-- C8 witness: a concrete fetched batch whose only release has no asset
matching the configured target filters down to the empty sequence, returned
as a success. -/
theorem C8_fetch_target_filter_witness :
    rl_filter.fetch ⟨200, .ok ⟨true, [soft_agent], none⟩⟩ = .ok [] := by
  have h := (C8_fetch_target_filter rl_filter ⟨200, .ok ⟨true, [soft_agent], none⟩⟩
    [release_agent] (by decide)).2 "zzz" rfl
  exact h.1.trans (by decide)

/-- Builders used to evaluate `UpdateBuilder::build`: all four required
fields set, and each of the four unset in turn. -/
def builder_all : UpdateBuilder :=
  { UpdateBuilder.default with
    name := some "Agent", bin_name := some "agent.exe",
    bin_path_in_archive := some "agent.exe", current_version := some "1.0" }

/-- `builder_all` with the logical name unset. -/
def builder_no_name : UpdateBuilder := { builder_all with name := none }

/-- `builder_all` with the binary name unset. -/
def builder_no_bin_name : UpdateBuilder := { builder_all with bin_name := none }

/-- `builder_all` with the path in the archive unset. -/
def builder_no_bpa : UpdateBuilder := { builder_all with bin_path_in_archive := none }

/-- `builder_all` with the current version unset. -/
def builder_no_cv : UpdateBuilder := { builder_all with current_version := none }

/-- C3: `build()` fails with a `Config` error on each of the four missing
required fields and succeeds with defaults otherwise, but for an unset
`name` the failure message misnames the field: it reads as if `bin_name`
were the missing one (the copy-pasted bail on cloud.rs line 350), against
the claim that the failure names the first missing required field. The
other three messages, the check order, and the defaulting of `target` and
`bin_install_path` are as claimed. -/
theorem C3_build_config_failures :
    builder_no_name.name = none ∧
    builder_no_name.build "/cur/exe" "triple" = .err (.Config "\x60bin_name\x60 required") ∧
    builder_no_bin_name.build "/cur/exe" "triple" =
      .err (.Config "\x60bin_name\x60 required") ∧
    builder_no_bpa.build "/cur/exe" "triple" =
      .err (.Config "\x60bin_path_in_archive\x60 required") ∧
    builder_no_cv.build "/cur/exe" "triple" =
      .err (.Config "\x60current_version\x60 required") ∧
    builder_all.build "/cur/exe" "triple" =
      .ok { name := "Agent", target := "triple", current_version := "1.0",
            target_version := none, bin_name := "agent.exe",
            bin_install_path := "/cur/exe", bin_path_in_archive := "agent.exe",
            show_download_progress := false, ignore_ver_compare := true,
            show_output := true, no_confirm := false, progress_style := none,
            auth_token := none, custom_url := none } := by
  refine ⟨rfl, rfl, rfl, rfl, rfl, rfl⟩

/-- C5 counterexample: a pre-update hook command that fails to run at all
does not return normally; the `expect` panics and aborts the run. -/
theorem C5_counterexample :
    u_h.before_update none = .panic ∧ (u_h.before_update none).isErr = false :=
  ⟨rfl, rfl⟩

/-- C5 (amended): a hook command that executes to completion never aborts
the run, whatever its exit status (the outcome is only logged); but a hook
command that fails to run at all panics on the `expect` and aborts the run
(as does captured stdout that is not valid UTF-8). This holds for both the
pre-update and the post-update hook. -/
theorem C5_hook_failure_behaviour :
    (∀ (u : Update) (out : CmdOutput) (s : String), out.stdout_utf8 = some s →
      u.before_update (some out) = .ok () ∧ u.after_update (some out) = .ok ()) ∧
    (∀ u : Update, u.before_update none = .panic ∧ u.after_update none = .panic) := by
  constructor
  · intro u out s hsome
    constructor <;> simp [Update.before_update, Update.after_update, runHook, hsome]
  · intro u
    exact ⟨rfl, rfl⟩

/-- C5 witness: a hook that ran and exited with the non-zero status 1
returns normally from both hooks. -/
theorem C5_hook_failure_behaviour_witness :
    u_h.before_update (some ⟨1, some "sc stop failed"⟩) = .ok () ∧
    u_h.after_update (some ⟨1, some "sc stop failed"⟩) = .ok () :=
  C5_hook_failure_behaviour.1 u_h ⟨1, some "sc stop failed"⟩ "sc stop failed" rfl

/-- The builder of the C10 witness: the default with only the four required
fields set, the ignore-version-compare flag untouched. -/
def builder10 : UpdateBuilder :=
  { UpdateBuilder.default with
    name := some "Agent", bin_name := some "agent.exe",
    bin_path_in_archive := some "agent.exe", current_version := some "2.0.0" }

/-- The plan `builder10` builds. -/
def u10 : Update :=
  { name := "Agent", target := "triple", current_version := "2.0.0",
    target_version := none, bin_name := "agent.exe", bin_install_path := "/exe",
    bin_path_in_archive := "agent.exe", show_download_progress := false,
    ignore_ver_compare := true, show_output := true, no_confirm := false,
    progress_style := none, auth_token := none, custom_url := none }

/-- C10: a freshly initialized builder defaults the ignore-version-compare
flag to true (and show_download_progress to false, show_output to true,
no_confirm to false); any plan built with the flag still at its default has
the version gate disabled, and the disabled gate applies an update even when
the resolved version equals the current one. -/
theorem C10_builder_defaults_disable_gate :
    (UpdateBuilder.new = UpdateBuilder.default ∧
     UpdateBuilder.default.ignore_ver_compare = true ∧
     UpdateBuilder.default.show_download_progress = false ∧
     UpdateBuilder.default.show_output = true ∧
     UpdateBuilder.default.no_confirm = false) ∧
    (∀ (b : UpdateBuilder) (exe tgt : String) (u : Update),
      b.ignore_ver_compare = UpdateBuilder.default.ignore_ver_compare →
      b.build exe tgt = .ok u → u.ignore_ver_compare = true) ∧
    (∀ v : String, gate_applies true v v = true) := by
  refine ⟨⟨rfl, rfl, rfl, rfl, rfl⟩, ?_, fun v => rfl⟩
  intro b exe tgt u hig hb
  rw [UpdateBuilder.build] at hb
  cases hn : b.name with
  | none => rw [hn] at hb; exact Outcome.noConfusion hb
  | some name =>
    rw [hn] at hb
    cases hbn : b.bin_name with
    | none => rw [hbn] at hb; exact Outcome.noConfusion hb
    | some bin_name =>
      rw [hbn] at hb
      cases hbpa : b.bin_path_in_archive with
      | none => rw [hbpa] at hb; exact Outcome.noConfusion hb
      | some bpa =>
        rw [hbpa] at hb
        cases hcv : b.current_version with
        | none => rw [hcv] at hb; exact Outcome.noConfusion hb
        | some cv =>
          rw [hcv] at hb
          injection hb with hu
          rw [← hu]
          exact hig

/-- C10 witness: the four required fields set on a fresh builder, the flag
untouched, yields a plan whose gate is disabled. -/
theorem C10_builder_defaults_disable_gate_witness :
    builder10.build "/exe" "triple" = .ok u10 ∧ u10.ignore_ver_compare = true :=
  ⟨by decide,
   C10_builder_defaults_disable_gate.2.1 builder10 "/exe" "triple" u10 rfl (by decide)⟩
